import Mathlib

/-!
Verification of the TestGenius document consolidation and multi-source
gathering pipeline.  The definitions below are a shallow embedding of the
Python sources (utils/document_processor.py, utils/jira_client.py,
agents/document_agent.py, test_genius_chatbot.py).  External libraries
(PyPDF2, python-docx, BeautifulSoup, requests, the Jira SDK, byte decoding
and the clock) are modelled as oracle parameters; everything written in the
repository itself is translated directly.
-/

namespace TestGenius

/-- Lowercase the characters of a string (models Python str.lower for the
ASCII names used by the pipeline). -/
def lcChars (s : String) : List Char := s.data.map Char.toLower

/-- Python str.lower as a String-to-String function. -/
def lowerStr (s : String) : String := ⟨lcChars s⟩

/-- Occurrence of a character list inside another as a contiguous block. -/
def infixIn (sub : List Char) : List Char → Bool
  | [] => sub.isEmpty
  | c :: s => sub.isPrefixOf (c :: s) || infixIn sub s

/-- Containment of one string inside another (Python `sub in s`). -/
def containsSub (s sub : String) : Bool := infixIn sub.data s.data

/-- Python s.endswith(suffix). -/
def endsWithStr (s suffix : String) : Bool := suffix.data.isSuffixOf s.data

/-- Case-insensitive test that the literal `l` starts the character list `s`
(used for the re.IGNORECASE literal parts of the link regexes). -/
def ciStarts (l s : List Char) : Bool :=
  (l.map Char.toLower).isPrefixOf (s.map Char.toLower)

/-- Drop everything up to and including the first occurrence of `p` in `s`;
none when `p` does not occur.  This is the single step of matching one
`.*p` block of a Python regex. -/
def dropAfter (p : List Char) : List Char → Option (List Char)
  | [] => if p.isEmpty then some [] else none
  | c :: s => if p.isPrefixOf (c :: s) then some ((c :: s).drop p.length)
              else dropAfter p (s)

/-- Match a regex of the form `.*p1.*p2...*` against `s`: the parts must
occur in order without overlap.  Taking the leftmost occurrence of each
part is complete for this pattern shape. -/
def matchSeq : List Char → List (List Char) → Bool
  | _, [] => true
  | s, p :: ps =>
    match dropAfter p s with
    | none => false
    | some r => matchSeq r ps

/-- Match a regex `.*p1.*p2...*ext$`: the string must end with `ext`, and
the parts must occur in order inside the prefix before `ext`. -/
def matchTail (s : List Char) (parts : List (List Char)) (ext : List Char) : Bool :=
  ext.isSuffixOf s && matchSeq (s.take (s.length - ext.length)) parts

/-- One filename pattern from identify_prd_attachments or
identify_hld_lld_attachments: the in-order name parts, and whether the
extension alternative is `\.docx?$` (true) or `\.pdf$` (false). -/
structure FnPattern where
  parts : List String
  docExt : Bool
deriving Repr, DecidableEq

/-- Run one filename pattern against an already-lowercased filename,
matching the anchored Python regexes `.*p1.*...\.pdf$` / `.*p1.*...\.docx?$`. -/
def runPattern (p : FnPattern) (l : List Char) : Bool :=
  if p.docExt then
    matchTail l (p.parts.map String.data) ".docx".data ||
    matchTail l (p.parts.map String.data) ".doc".data
  else
    matchTail l (p.parts.map String.data) ".pdf".data

/-- The prd_patterns list of identify_prd_attachments, in source order. -/
def prdPatterns : List FnPattern :=
  [⟨["prd"], false⟩,
   ⟨["product", "requirement"], false⟩,
   ⟨["requirement", "document"], false⟩,
   ⟨["functional", "spec"], false⟩,
   ⟨["business", "requirement"], false⟩,
   ⟨["prd"], true⟩,
   ⟨["product", "requirement"], true⟩,
   ⟨["requirement", "document"], true⟩]

/-- The design_patterns list of identify_hld_lld_attachments, in source order. -/
def designPatterns : List FnPattern :=
  [⟨["hld"], false⟩,
   ⟨["high", "level", "design"], false⟩,
   ⟨["lld"], false⟩,
   ⟨["low", "level", "design"], false⟩,
   ⟨["technical", "design"], false⟩,
   ⟨["architecture"], false⟩,
   ⟨["design", "document"], false⟩,
   ⟨["hld"], true⟩,
   ⟨["lld"], true⟩,
   ⟨["design"], true⟩]

/-- True when the lowercased filename matches one of the PRD patterns
(the inner pattern loop of identify_prd_attachments). -/
def isPrdFilename (f : String) : Bool :=
  prdPatterns.any (fun p => runPattern p (lcChars f))

/-- True when the lowercased filename matches one of the design patterns
(the inner pattern loop of identify_hld_lld_attachments). -/
def isDesignFilename (f : String) : Bool :=
  designPatterns.any (fun p => runPattern p (lcChars f))

/-- An attachment descriptor as carried in ticket_data['attachments']. -/
structure Attachment where
  filename : String
  size : Nat
  created : String
  author : String
  contentType : String
  downloadUrl : String
deriving Repr, DecidableEq

/-- identify_prd_attachments: keep, in input order, the attachments whose
lowercased filename matches some PRD pattern (the per-attachment loop with
break on the first matching pattern). -/
def identifyPrdAttachments : List Attachment → List Attachment
  | [] => []
  | a :: rest =>
    if isPrdFilename a.filename then a :: identifyPrdAttachments rest
    else identifyPrdAttachments rest

/-- identify_hld_lld_attachments: keep, in input order, the attachments
whose lowercased filename matches some design pattern. -/
def identifyHldLldAttachments : List Attachment → List Attachment
  | [] => []
  | a :: rest =>
    if isDesignFilename a.filename then a :: identifyHldLldAttachments rest
    else identifyHldLldAttachments rest

/-- Spec-worded requirements predicate for claim C2: the filename,
case-insensitively, literally contains one of the five listed names and
ends with one of the three listed extensions.  This follows the spec text,
not the code, and is only used to exhibit where the two differ. -/
def specReqFilename (f : String) : Bool :=
  (["prd", "product requirement", "requirement document",
    "functional spec", "business requirement"].any
      (fun p => containsSub (lowerStr f) p)) &&
  ([".pdf", ".doc", ".docx"].any (fun e => endsWithStr (lowerStr f) e))

/-- Spec-worded design predicate for claim C2 (spec text, not code). -/
def specDesignFilename (f : String) : Bool :=
  (["hld", "high level design", "lld", "low level design",
    "technical design", "architecture", "design document"].any
      (fun p => containsSub (lowerStr f) p)) &&
  ([".pdf", ".doc", ".docx"].any (fun e => endsWithStr (lowerStr f) e))

/-! Text extraction.  Python exceptions are modelled with Except: a
library call may raise (return Except.error) and the try/except blocks of
the source become pyTry. -/

/-- Result of a Python expression that may raise an exception. -/
abbrev PyResult (α : Type) : Type := Except String α

/-- A Python try/except block: run the body, and on an exception run the
handler. -/
def pyTry {α : Type} (body : PyResult α) (handler : String → PyResult α) : PyResult α :=
  match body with
  | .ok a => .ok a
  | .error e => handler e

/-- Oracles for the external libraries and runtime services used by
DocumentProcessor.  pdfParse models PyPDF2.PdfReader (construction may
raise; each page's extract_text may raise); docxParse models
docx.Document with its paragraph texts; soupGetText models
BeautifulSoup(...).get_text(); decode models bytes.decode('utf-8',
errors='ignore'), which is total; now models the timestamp helper. -/
structure Libs where
  pdfParse : List Nat → PyResult (List (PyResult String))
  docxParse : List Nat → PyResult (List String)
  soupGetText : String → PyResult String
  decode : List Nat → String
  now : String

/-- The page loop of _extract_pdf_text: text += page.extract_text() + newline,
propagating any page exception. -/
def pdfFold : List (PyResult String) → String → PyResult String
  | [], acc => .ok acc
  | p :: ps, acc =>
    match p with
    | .error e => .error e
    | .ok t => pdfFold ps (acc ++ t ++ "\n")

/-- The paragraph loop of _extract_docx_text. -/
def docxFold : List String → String → String
  | [], acc => acc
  | p :: ps, acc => docxFold ps (acc ++ p ++ "\n")

/-- Python str.strip: drop whitespace from both ends. -/
def pyStrip (s : String) : String :=
  ⟨((s.data.dropWhile Char.isWhitespace).reverse.dropWhile Char.isWhitespace).reverse⟩

/-- The try-block of _extract_pdf_text: read the pages (the reader
construction may raise), run the page loop, strip the result. -/
def pdfBody : PyResult (List (PyResult String)) → PyResult (Option String)
  | .error e => .error e
  | .ok pages =>
    match pdfFold pages "" with
    | .error e => .error e
    | .ok text => .ok (some (pyStrip text))

/-- _extract_pdf_text with its try/except: on success the per-page texts
with a newline after each, stripped; any exception yields None. -/
def extractPdfTextE (libs : Libs) (bytes : List Nat) : PyResult (Option String) :=
  pyTry (pdfBody (libs.pdfParse bytes)) (fun _ => .ok none)

/-- The try-block of _extract_docx_text: parse, then join paragraph texts. -/
def docxBody : PyResult (List String) → PyResult (Option String)
  | .error e => .error e
  | .ok paras => .ok (some (pyStrip (docxFold paras "")))

/-- _extract_docx_text with its try/except. -/
def extractDocxTextE (libs : Libs) (bytes : List Nat) : PyResult (Option String) :=
  pyTry (docxBody (libs.docxParse bytes)) (fun _ => .ok none)

/-- The try-block of _extract_html_text: markup stripping may raise. -/
def htmlBody : PyResult String → PyResult (Option String)
  | .error e => .error e
  | .ok t => .ok (some t)

/-- _extract_html_text with its try/except: decode then strip markup. -/
def extractHtmlTextE (libs : Libs) (bytes : List Nat) : PyResult (Option String) :=
  pyTry (htmlBody (libs.soupGetText (libs.decode bytes))) (fun _ => .ok none)

/-- Dispatch condition of the PDF branch of _extract_text_from_bytes. -/
def pdfCond (filename contentType : String) : Bool :=
  endsWithStr (lowerStr filename) ".pdf" || containsSub (lowerStr contentType) "pdf"

/-- Dispatch condition of the Word branch. -/
def wordCond (filename contentType : String) : Bool :=
  endsWithStr (lowerStr filename) ".docx" || endsWithStr (lowerStr filename) ".doc" ||
  containsSub (lowerStr contentType) "word"

/-- Dispatch condition of the plain-text branch. -/
def textCond (filename contentType : String) : Bool :=
  endsWithStr (lowerStr filename) ".txt" || endsWithStr (lowerStr filename) ".md" ||
  containsSub (lowerStr contentType) "text"

/-- Dispatch condition of the HTML branch. -/
def htmlCond (filename contentType : String) : Bool :=
  endsWithStr (lowerStr filename) ".html" || containsSub (lowerStr contentType) "html"

/-- _extract_text_from_bytes: dispatch on filename suffix and content-type
hint, with the outer try/except returning None on any exception. -/
def extractTextFromBytesE (libs : Libs) (bytes : List Nat)
    (filename contentType : String) : PyResult (Option String) :=
  pyTry
    (if pdfCond filename contentType then extractPdfTextE libs bytes
     else if wordCond filename contentType then extractDocxTextE libs bytes
     else if textCond filename contentType then .ok (some (libs.decode bytes))
     else if htmlCond filename contentType then extractHtmlTextE libs bytes
     else pyTry (.ok (some (libs.decode bytes))) (fun _ => .ok none))
    (fun _ => .ok none)

/-- The value _extract_text_from_bytes hands to its caller (exceptions can
never escape; see the C5 theorem). -/
def extractTextFromBytes (libs : Libs) (bytes : List Nat)
    (filename contentType : String) : Option String :=
  match extractTextFromBytesE libs bytes filename contentType with
  | .ok r => r
  | .error _ => none

/-- Option-valued _extract_pdf_text as seen by callers. -/
def extractPdfText (libs : Libs) (bytes : List Nat) : Option String :=
  match extractPdfTextE libs bytes with
  | .ok r => r
  | .error _ => none

/-- Option-valued _extract_docx_text as seen by callers. -/
def extractDocxText (libs : Libs) (bytes : List Nat) : Option String :=
  match extractDocxTextE libs bytes with
  | .ok r => r
  | .error _ => none

/-- Option-valued _extract_html_text as seen by callers. -/
def extractHtmlText (libs : Libs) (bytes : List Nat) : Option String :=
  match extractHtmlTextE libs bytes with
  | .ok r => r
  | .error _ => none

/-! The file-based Document Store.  The documents folder is modelled as an
association list from paths to contents; a write shadows previous entries,
so reads see the latest version (overwrite semantics). -/

/-- The persisted state of the documents folder. -/
abbrev FileStore : Type := List (String × String)

/-- Write a file, overwriting any previous content at the same path. -/
def setFile (store : FileStore) (path content : String) : FileStore :=
  (path, content) :: store

/-- Read a file: the most recently written content at the path, if any. -/
def readFile (store : FileStore) (path : String) : Option String :=
  (store.find? (fun e => e.1 == path)).map (fun e => e.2)

/-- Config.DOCUMENTS_FOLDER. -/
def documentsFolder : String := "documents"

/-- Path of an attachment Document Unit, as generated in process_attachment. -/
def attPath (attachmentType sourceTicket : String) (attachmentNumber : Nat) : String :=
  documentsFolder ++ "/" ++ attachmentType ++ "-from-" ++ sourceTicket ++
    "-attachment" ++ toString attachmentNumber ++ "-content.md"

/-- Path of a wiki-page Document Unit, as generated in fetch_confluence_page. -/
def confPath (sourceTicket : String) (pageNumber : Nat) : String :=
  documentsFolder ++ "/conf-from-" ++ sourceTicket ++ "-page" ++
    toString pageNumber ++ "-content.md"

/-- Path of a URL-fetched document, as generated in fetch_document_from_url. -/
def urlDocPath (contentType ticketKey : String) : String :=
  documentsFolder ++ "/user-provided-" ++ contentType ++ "-" ++ ticketKey ++ "-from-url.md"

/-- Path of the Consolidated Artifact, fixed in consolidate_documents. -/
def finalContentPath : String := documentsFolder ++ "/final-content.md"

/-! The Ticket Snapshot data model, mirroring the dict built by
JiraClient.get_ticket_details. -/

/-- Parent reference inside a ticket snapshot. -/
structure ParentRef where
  key : String
  summary : String
  issueType : String
deriving Repr, DecidableEq

/-- Subtask entry inside a ticket snapshot. -/
structure Subtask where
  key : String
  summary : String
  status : String
deriving Repr, DecidableEq

/-- A ticket snapshot (ticket_data). -/
structure Ticket where
  key : String
  summary : String
  description : String
  issueType : String
  status : String
  priority : String
  assignee : String
  reporter : String
  created : String
  updated : String
  project : String
  projectKey : String
  attachments : List Attachment
  epicLink : Option String
  parent : Option ParentRef
  subtasks : List Subtask
  components : List String
  labels : List String
  fixVersions : List String
deriving Repr, DecidableEq

/-- Uppercase a string (Python str.upper for the ASCII category names). -/
def upperStr (s : String) : String := ⟨s.data.map Char.toUpper⟩

/-- The subtask lines of _format_jira_as_markdown. -/
def subtaskLines : List Subtask → String
  | [] => ""
  | s :: rest =>
    "- **" ++ s.key ++ "**: " ++ s.summary ++ " (" ++ s.status ++ ")\n" ++ subtaskLines rest

/-- The attachment lines of _format_jira_as_markdown. -/
def attachmentLines : List Attachment → String
  | [] => ""
  | a :: rest =>
    "- **" ++ a.filename ++ "** (" ++ toString a.size ++ " bytes) - " ++ a.contentType ++
      "\n  - Created: " ++ a.created ++ " by " ++ a.author ++ "\n" ++ attachmentLines rest

/-- _format_jira_as_markdown. -/
def formatJiraAsMarkdown (t : Ticket) : String :=
  "# Jira Ticket: " ++ t.key ++ "\n\n## Summary\n" ++ t.summary ++
    "\n\n## Details\n- **Issue Type**: " ++ t.issueType ++
    "\n- **Status**: " ++ t.status ++
    "\n- **Priority**: " ++ t.priority ++
    "\n- **Assignee**: " ++ t.assignee ++
    "\n- **Reporter**: " ++ t.reporter ++
    "\n- **Project**: " ++ t.project ++ " (" ++ t.projectKey ++ ")" ++
    "\n- **Created**: " ++ t.created ++
    "\n- **Updated**: " ++ t.updated ++
    "\n\n## Description\n" ++
    (if t.description = "" then "No description provided" else t.description) ++ "\n\n" ++
  (match t.epicLink with
   | some e => if e = "" then "" else "## Epic Link\n" ++ e ++ "\n\n"
   | none => "") ++
  (match t.parent with
   | some p => "## Parent\n- **Key**: " ++ p.key ++ "\n- **Summary**: " ++ p.summary ++
       "\n- **Type**: " ++ p.issueType ++ "\n\n"
   | none => "") ++
  (if t.subtasks = [] then "" else "## Subtasks\n" ++ subtaskLines t.subtasks ++ "\n") ++
  (if t.components = [] then "" else
    "## Components\n" ++ String.intercalate ", " t.components ++ "\n\n") ++
  (if t.labels = [] then "" else
    "## Labels\n" ++ String.intercalate ", " t.labels ++ "\n\n") ++
  (if t.fixVersions = [] then "" else
    "## Fix Versions\n" ++ String.intercalate ", " t.fixVersions ++ "\n\n") ++
  (if t.attachments = [] then "" else "## Attachments\n" ++ attachmentLines t.attachments ++ "\n")

/-- save_jira_content: write the formatted ticket under
(filename_prefix or jira-key)-content.md and return the path. -/
def saveJiraContent (t : Ticket) (filenamePrefix : Option String)
    (store : FileStore) : String × FileStore :=
  let pfx :=
    match filenamePrefix with
    | none => "jira-" ++ t.key
    | some p => if p = "" then "jira-" ++ t.key else p
  let path := documentsFolder ++ "/" ++ pfx ++ "-content.md"
  (path, setFile store path (formatJiraAsMarkdown t))

/-- The markdown body written by process_attachment for one attachment unit. -/
def attachmentMarkdown (attachmentType : String) (a : Attachment)
    (sourceTicket text : String) : String :=
  "# " ++ upperStr attachmentType ++ " Document: " ++ a.filename ++
    "\n\n**Source**: Jira Ticket " ++ sourceTicket ++
    "\n**File Type**: " ++ a.contentType ++
    "\n**Size**: " ++ toString a.size ++ " bytes" ++
    "\n**Created**: " ++ a.created ++ " by " ++ a.author ++
    "\n\n## Content\n\n" ++ text ++ "\n"

/-- The download-then-extract front half of process_attachment: None when
the download raises (caught by the outer except), when extraction yields
None, or when the extracted text is empty (Python falsy check). -/
def attachmentExtract (libs : Libs) (jira : String → String → PyResult (List Nat))
    (a : Attachment) : Option String :=
  match jira a.downloadUrl a.filename with
  | .error _ => none
  | .ok bytes =>
    match extractTextFromBytes libs bytes a.filename a.contentType with
    | none => none
    | some t => if t = "" then none else some t

/-- process_attachment: on a usable extraction, persist the unit under
attPath and return its path; otherwise return None and leave the store
untouched. -/
def processAttachment (libs : Libs) (jira : String → String → PyResult (List Nat))
    (a : Attachment) (attachmentType sourceTicket : String) (attachmentNumber : Nat)
    (store : FileStore) : Option String × FileStore :=
  match attachmentExtract libs jira a with
  | none => (none, store)
  | some t =>
    let path := attPath attachmentType sourceTicket attachmentNumber
    (some path, setFile store path (attachmentMarkdown attachmentType a sourceTicket t))

/-- The doc_type selection of process_design_attachments. -/
def designDocType (filename : String) : String :=
  if containsSub (lowerStr filename) "hld" || containsSub (lowerStr filename) "high"
  then "hld" else "lld"

/-- The enumerate(..., i) loop of process_prd_attachments: each attachment
is processed with its 1-based position as the attachment number, whether
or not earlier attachments were stored. -/
def processPrdLoop (libs : Libs) (jira : String → String → PyResult (List Nat))
    (key : String) : List Attachment → Nat → FileStore → List (Option String) × FileStore
  | [], _, store => ([], store)
  | a :: rest, i, store =>
    let r := processAttachment libs jira a "prd" key i store
    let rs := processPrdLoop libs jira key rest (i + 1) r.2
    (r.1 :: rs.1, rs.2)

/-- process_prd_attachments over a ticket. -/
def processPrdAttachments (libs : Libs) (jira : String → String → PyResult (List Nat))
    (t : Ticket) (store : FileStore) : List (Option String) × FileStore :=
  processPrdLoop libs jira t.key (identifyPrdAttachments t.attachments) 1 store

/-- The enumerate(..., i) loop of process_design_attachments: one shared
counter over the whole classified design list, with the per-attachment
hld/lld category choice. -/
def processDesignLoop (libs : Libs) (jira : String → String → PyResult (List Nat))
    (key : String) : List Attachment → Nat → FileStore → List (Option String) × FileStore
  | [], _, store => ([], store)
  | a :: rest, i, store =>
    let r := processAttachment libs jira a (designDocType a.filename) key i store
    let rs := processDesignLoop libs jira key rest (i + 1) r.2
    (r.1 :: rs.1, rs.2)

/-- process_design_attachments over a ticket. -/
def processDesignAttachments (libs : Libs) (jira : String → String → PyResult (List Nat))
    (t : Ticket) (store : FileStore) : List (Option String) × FileStore :=
  processDesignLoop libs jira t.key (identifyHldLldAttachments t.attachments) 1 store

/-- The fixed header line of consolidate_documents. -/
def consolidatedHeader : String :=
  "# Consolidated Content for Test Documentation Generation\n\n"

/-- consolidate_documents: fold the readable files, in the given order,
onto the header, then write final-content.md (overwriting it) and return
its path. -/
def consolidateDocuments (store : FileStore) (documentFiles : List String) :
    String × FileStore :=
  let final := documentFiles.foldl
    (fun acc f =>
      match readFile store f with
      | some c => acc ++ "\n---\n\n" ++ c ++ "\n\n"
      | none => acc)
    consolidatedHeader
  (finalContentPath, setFile store finalContentPath final)

/-- save_user_content: wrap user text in the fixed metadata header and
persist it under the caller-chosen filename. -/
def saveUserContent (libs : Libs) (content filename : String)
    (store : FileStore) : String × FileStore :=
  let path := documentsFolder ++ "/" ++ filename
  (path, setFile store path
    ("# User-Provided Document\n\n**Source**: User Input\n**Created**: " ++ libs.now ++
      "\n\n## Content\n\n" ++ content ++ "\n"))

/-- save_markdown_file: persist caller-supplied markdown under a
caller-chosen filename in the documents folder. -/
def saveMarkdownFile (content filename : String) (store : FileStore) :
    String × FileStore :=
  let path := documentsFolder ++ "/" ++ filename
  (path, setFile store path content)

/-- process_user_provided_content: choose the filename from the lowercased
content type (the three known types use their canonical lowercase name,
anything else keeps the caller's spelling) and persist through
save_user_content. -/
def processUserProvidedContent (libs : Libs) (contentType content ticketKey : String)
    (store : FileStore) : String × FileStore :=
  let filename :=
    if lowerStr contentType = "prd" then "user-provided-prd-" ++ ticketKey ++ ".md"
    else if lowerStr contentType = "confluence" then
      "user-provided-confluence-" ++ ticketKey ++ ".md"
    else if lowerStr contentType = "design" then
      "user-provided-design-" ++ ticketKey ++ ".md"
    else "user-provided-" ++ contentType ++ "-" ++ ticketKey ++ ".md"
  saveUserContent libs content filename store

/-- The save step of the chatbot's _handle_manual_prd_input: manual PRD
text goes to the fixed name prd-manual-content.md with a fixed header. -/
def manualPrdSave (content : String) (store : FileStore) : String × FileStore :=
  saveMarkdownFile ("# Manual PRD Content\n\n" ++ content) "prd-manual-content.md" store

/-- Python str.title over a character list, tracking whether the previous
character was alphabetic. -/
def titleChars : List Char → Bool → List Char
  | [], _ => []
  | c :: r, prevAlpha =>
    (if c.isAlpha then (if prevAlpha then c.toLower else c.toUpper) else c) ::
      titleChars r c.isAlpha

/-- Python str.title (ASCII model). -/
def pyTitle (s : String) : String := ⟨titleChars s.data false⟩

/-- A requests.get response as consumed by fetch_document_from_url. -/
structure HttpResp where
  contentTypeHeader : String
  content : List Nat
  text : String

/-- The format routing of fetch_document_from_url: response content-type
header first, URL suffix second, defaulting to the response text. -/
def routeUrlText (libs : Libs) (url : String) (resp : HttpResp) : Option String :=
  let dct := lowerStr resp.contentTypeHeader
  if containsSub dct "pdf" || endsWithStr (lowerStr url) ".pdf" then
    extractPdfText libs resp.content
  else if containsSub dct "word" || endsWithStr (lowerStr url) ".doc" ||
      endsWithStr (lowerStr url) ".docx" then
    extractDocxText libs resp.content
  else if containsSub dct "html" || endsWithStr (lowerStr url) ".html" then
    extractHtmlText libs resp.content
  else some resp.text

/-- fetch_document_from_url: fetch, route to an extractor, and persist
under urlDocPath; any failure (request exception, extraction None, empty
text) yields None with the store untouched. -/
def fetchDocumentFromUrl (libs : Libs) (http : String → PyResult HttpResp)
    (url contentType ticketKey : String) (store : FileStore) :
    Option String × FileStore :=
  match http url with
  | .error _ => (none, store)
  | .ok resp =>
    match routeUrlText libs url resp with
    | none => (none, store)
    | some t =>
      if t = "" then (none, store)
      else
        let path := urlDocPath contentType ticketKey
        (some path, setFile store path
          ("# " ++ pyTitle contentType ++ " Document from URL\n\n**Source**: " ++ url ++
            "\n**Ticket**: " ++ ticketKey ++ "\n**Content Type**: " ++
            lowerStr resp.contentTypeHeader ++
            "\n**Fetched**: " ++ libs.now ++ "\n\n## Content\n\n" ++ t ++ "\n"))

/-! The Confluence-link regexes of JiraClient.extract_confluence_links.
Each pattern is a sequence of literal pieces and one-or-more character
classes; matching follows Python semantics (leftmost start, greedy with
backtracking, case-insensitive literals, non-overlapping findall). -/

/-- One token of a link pattern. -/
inductive RTok where
  | lit : List Char → RTok
  | plus : (Char → Bool) → RTok

/-- Greedy-with-backtracking choice of the length taken by a plus token:
try the longest candidate run first, shrinking until the continuation
succeeds. -/
def tryGreedy (g : Nat → Option Nat) : Nat → Option Nat
  | 0 => none
  | k + 1 =>
    match g (k + 1) with
    | some m => some m
    | none => tryGreedy g k

/-- Match a token sequence at the head of `s`, returning the number of
characters consumed by the whole pattern. -/
def mt : List RTok → List Char → Option Nat
  | [], _ => some 0
  | .lit l :: ts, s =>
    if ciStarts l s then (mt ts (s.drop l.length)).map (· + l.length) else none
  | .plus f :: ts, s =>
    let run := (s.takeWhile f).length
    tryGreedy (fun k => (mt ts (s.drop k)).map (· + k)) run

/-- re.findall for one pattern, fuelled so the recursion is structural:
scan left to right, emit each non-overlapping match, resume after its
end.  Every step consumes at least one character, so fuel equal to the
length of the scanned text never runs out. -/
def findAllF (g : List Char → Option Nat) : Nat → List Char → List (List Char)
  | 0, _ => []
  | _, [] => []
  | fuel + 1, c :: rest =>
    match g (c :: rest) with
    | some (n + 1) => (c :: rest).take (n + 1) :: findAllF g fuel (rest.drop n)
    | _ => findAllF g fuel rest

/-- re.findall for one pattern over a full text. -/
def findAll (g : List Char → Option Nat) (s : List Char) : List (List Char) :=
  findAllF g s.length s

/-- Character class `[^/]`. -/
def notSlash (c : Char) : Bool := c != '/'

/-- Character class excluding whitespace and a closing parenthesis. -/
def notSpaceParen (c : Char) : Bool := !(c.isWhitespace || c == ')')

/-- The `https?://` scheme alternation: greedy tries the s-variant first. -/
def matchUrlPat (toks : List RTok) (s : List Char) : Option Nat :=
  match mt (.lit "https://".data :: toks) s with
  | some n => some n
  | none => mt (.lit "http://".data :: toks) s

/-- Tokens of the first Confluence URL pattern (spaces/pages form). -/
def confToksA : List RTok :=
  [.plus notSlash, .lit "/wiki/spaces/".data, .plus notSlash,
   .lit "/pages/".data, .plus Char.isDigit, .lit "/".data, .plus notSpaceParen]

/-- Tokens of the second Confluence URL pattern (display form). -/
def confToksB : List RTok :=
  [.plus notSlash, .lit "/display/".data, .plus notSlash, .lit "/".data,
   .plus notSpaceParen]

/-- Tokens of the third Confluence URL pattern (atlassian.net/wiki form). -/
def confToksC : List RTok :=
  [.plus notSlash, .lit ".atlassian.net/wiki/".data, .plus notSpaceParen]

/-- Order-preserving de-duplication (dict.fromkeys). -/
def dedupAux : List String → List String → List String
  | _, [] => []
  | seen, x :: xs =>
    if seen.contains x then dedupAux seen xs else x :: dedupAux (x :: seen) xs

/-- Order-preserving de-duplication of a link list. -/
def dedupStrings (l : List String) : List String := dedupAux [] l

/-- extract_confluence_links: empty text yields no links; otherwise the
findall results of the three patterns, concatenated and de-duplicated. -/
def extractConfluenceLinks (text : String) : List String :=
  if text = "" then []
  else
    dedupStrings
      (((findAll (matchUrlPat confToksA) text.data) ++
        (findAll (matchUrlPat confToksB) text.data) ++
        (findAll (matchUrlPat confToksC) text.data)).map (fun l => ⟨l⟩))

/-! Page-id extraction of _extract_confluence_page_id: the three re.search
patterns tried in order, each scanned leftmost. -/

/-- re.search for the pattern of a pages path segment followed by digits
and a slash, returning the digit group. -/
def searchPagesSeg : List Char → Option (List Char)
  | [] => none
  | c :: s =>
    if "/pages/".data.isPrefixOf (c :: s) then
      let r := (c :: s).drop "/pages/".data.length
      let ds := r.takeWhile Char.isDigit
      if !ds.isEmpty && (r.drop ds.length).head? == some '/' then some ds
      else searchPagesSeg s
    else searchPagesSeg s

/-- re.search for a pageId query parameter, returning the digit group. -/
def searchPageIdParam : List Char → Option (List Char)
  | [] => none
  | c :: s =>
    if "pageId=".data.isPrefixOf (c :: s) then
      let ds := ((c :: s).drop "pageId=".data.length).takeWhile Char.isDigit
      if !ds.isEmpty then some ds else searchPageIdParam s
    else searchPageIdParam s

/-- re.search for a slash-digits-slash segment anywhere, returning the
digit group of the leftmost occurrence. -/
def searchSlashNumSlash : List Char → Option (List Char)
  | [] => none
  | c :: s =>
    if c == '/' then
      let ds := s.takeWhile Char.isDigit
      if !ds.isEmpty && (s.drop ds.length).head? == some '/' then some ds
      else searchSlashNumSlash s
    else searchSlashNumSlash s

/-- _extract_confluence_page_id: the three patterns in source order, first
match wins. -/
def extractConfluencePageId (pageUrl : String) : Option String :=
  match searchPagesSeg pageUrl.data with
  | some ds => some ⟨ds⟩
  | none =>
    match searchPageIdParam pageUrl.data with
    | some ds => some ⟨ds⟩
    | none => (searchSlashNumSlash pageUrl.data).map (fun ds => ⟨ds⟩)

/-- Spec-worded third pattern for claim C6: a bare TRAILING slash-digits-
slash segment (spec text, not code; used only to exhibit the difference). -/
def claimedTrailingId (pageUrl : String) : Option String :=
  match pageUrl.data.reverse with
  | '/' :: r =>
    let ds := r.takeWhile Char.isDigit
    if !ds.isEmpty && (r.drop ds.length).head? == some '/' then some ⟨ds.reverse⟩
    else none
  | _ => none

/-- Spec-worded page-id extraction for claim C6: the first two patterns as
in the code, then the trailing-only third pattern the spec describes. -/
def claimedExtractPageId (pageUrl : String) : Option String :=
  match searchPagesSeg pageUrl.data with
  | some ds => some ⟨ds⟩
  | none =>
    match searchPageIdParam pageUrl.data with
    | some ds => some ⟨ds⟩
    | none => claimedTrailingId pageUrl

/-- A Confluence page as returned by the wiki REST collaborator. -/
structure ConfPage where
  title : String
  bodyStorage : String
  version : String

/-- fetch_confluence_page: parse the page id (None aborts before any
fetch or write), call the wiki collaborator, strip markup, persist under
confPath; every failure is caught and yields None with the store
untouched. -/
def fetchConfluencePage (libs : Libs) (api : String → PyResult ConfPage)
    (pageUrl sourceTicket : String) (pageNumber : Nat) (store : FileStore) :
    Option String × FileStore :=
  match extractConfluencePageId pageUrl with
  | none => (none, store)
  | some pid =>
    match api pid with
    | .error _ => (none, store)
    | .ok page =>
      match libs.soupGetText page.bodyStorage with
      | .error _ => (none, store)
      | .ok text =>
        let path := confPath sourceTicket pageNumber
        (some path, setFile store path
          ("# Confluence Page: " ++ page.title ++ "\n\n**Source**: " ++ pageUrl ++
            "\n**Referenced from**: Jira Ticket " ++ sourceTicket ++
            "\n**Version**: " ++ page.version ++ "\n\n## Content\n\n" ++ text ++ "\n"))

/-! The Missing-Source Resolver (check_for_missing_documents). -/

/-- A Missing-Source Request (MissingDocumentRequest). -/
structure MissingDocumentRequest where
  documentType : String
  ticketKey : String
  message : String
  options : List String
deriving Repr, DecidableEq

/-- The requirements missing-request, with its four options. -/
def prdMissingRequest (key : String) : MissingDocumentRequest :=
  ⟨"prd", key,
   "No PRD (Product Requirements Document) found in " ++ key ++
     ". This is important for comprehensive test documentation.",
   ["Provide PRD content as text",
    "Provide PRD file path/URL",
    "Skip PRD and continue with available information",
    "Check parent Epic for PRD"]⟩

/-- The wiki missing-request, with its three options. -/
def confluenceMissingRequest (key : String) : MissingDocumentRequest :=
  ⟨"confluence", key,
   "No Confluence page links found in " ++ key ++
     ". Additional documentation could improve test coverage.",
   ["Provide Confluence page URL(s)",
    "Provide additional documentation as text",
    "Skip Confluence and continue with available information"]⟩

/-- The design missing-request, with its three options. -/
def designMissingRequest (key : String) : MissingDocumentRequest :=
  ⟨"design", key,
   "No HLD/LLD (High/Low Level Design) documents found in " ++ key ++
     ". Design docs help create better test cases.",
   ["Provide design document file path/URL",
    "Provide design specifications as text",
    "Skip design docs and continue with available information"]⟩

/-- check_for_missing_documents: the three independent checks in source
order, each contributing its request when its classification or link
extraction comes back empty. -/
def checkForMissingDocuments (t : Ticket) : List MissingDocumentRequest :=
  (if identifyPrdAttachments t.attachments = [] then [prdMissingRequest t.key] else []) ++
  (if extractConfluenceLinks t.description = [] then [confluenceMissingRequest t.key] else []) ++
  (if identifyHldLldAttachments t.attachments = [] then [designMissingRequest t.key] else [])

/-- Necessary conditions of the spec's Document Unit file naming pattern
for claim C7 (spec text, not code): any name of the claimed shape ends in
the content suffix and carries the from marker. -/
def claimedUnitNamePattern (filename : String) : Bool :=
  endsWithStr filename "-content.md" && containsSub filename "-from-"

/-! Shared helper definitions and lemmas for the claim theorems. -/

/-- Concatenation of a list of strings. -/
def concatStrs : List String → String
  | [] => ""
  | s :: ss => s ++ concatStrs ss

/-- Python enumerate with a start index. -/
def enumFrom {α : Type} : Nat → List α → List (Nat × α)
  | _, [] => []
  | i, a :: rest => (i, a) :: enumFrom (i + 1) rest

/-- An attachment descriptor with only a filename of interest. -/
def sampleAtt (f : String) : Attachment := ⟨f, 0, "", "", "", f⟩

/-- A library oracle bundle on which every call succeeds. -/
def okLibs : Libs :=
  ⟨fun _ => .ok [.ok "pdf page"], fun _ => .ok ["para"], fun s => .ok s,
   fun _ => "decoded", "2024-01-01 00:00:00"⟩

/-- A download oracle that always succeeds. -/
def okJira : String → String → PyResult (List Nat) := fun _ _ => .ok [0]

/-- A ticket with no attachments and an empty description. -/
def c4Ticket : Ticket :=
  ⟨"T-9", "", "", "Story", "", "", "", "", "", "", "", "", [], none, none, [], [], [], []⟩

/-- Oracles under which the first attachment of the counterexample ticket
fails PDF parsing while the second extracts fine. -/
def c1Libs : Libs :=
  ⟨fun bs => if bs = [1] then .error "broken pdf" else .ok [.ok "unused"],
   fun _ => .ok ["body text"], fun s => .ok s, fun _ => "", ""⟩

/-- Download oracle serving distinct bytes per attachment URL. -/
def c1Jira : String → String → PyResult (List Nat) :=
  fun url _ => if url = "u1" then .ok [1] else .ok [2]

/-- A ticket with two PRD attachments, the first of which will fail
extraction. -/
def c1Ticket : Ticket :=
  ⟨"T-1", "", "", "Story", "", "", "", "", "", "", "", "",
   [⟨"spec_prd.pdf", 1, "", "", "application/pdf", "u1"⟩,
    ⟨"other_prd.docx", 1, "", "", "", "u2"⟩], none, none, [], [], [], []⟩

/-- Library oracles whose decoder is a real one on the empty input. -/
def c10Libs : Libs :=
  ⟨fun _ => .error "na", fun _ => .error "na", fun s => .ok s, fun _ => "", ""⟩

/-- A download oracle returning a zero-byte body. -/
def c10Jira : String → String → PyResult (List Nat) := fun _ _ => .ok []

lemma pyTry_ok_none (body : PyResult (Option String)) :
    ∃ r, pyTry body (fun _ => .ok none) = .ok r := by
  cases body with
  | ok a => exact ⟨a, rfl⟩
  | error e => exact ⟨none, rfl⟩

lemma pdfFold_all_ok : ∀ (strs : List String) (acc : String),
    pdfFold (strs.map Except.ok) acc = .ok (acc ++ concatStrs (strs.map (· ++ "\n"))) := by
  intro strs
  induction strs with
  | nil => intro acc; simp [pdfFold, concatStrs]
  | cons s ss ih =>
    intro acc
    simp [pdfFold, concatStrs, ih, String.append_assoc]

lemma pdfFold_page_error : ∀ (pre : List String) (e : String)
    (post : List (PyResult String)) (acc : String),
    pdfFold (pre.map Except.ok ++ Except.error e :: post) acc = .error e := by
  intro pre
  induction pre with
  | nil => intro e post acc; simp [pdfFold]
  | cons s ss ih => intro e post acc; simp [pdfFold, ih]

lemma identifyPrd_eq_filter : ∀ l : List Attachment,
    identifyPrdAttachments l = l.filter (fun a => isPrdFilename a.filename) := by
  intro l
  induction l with
  | nil => rfl
  | cons a rest ih =>
    by_cases h : isPrdFilename a.filename
    · simp [identifyPrdAttachments, List.filter_cons, h, ih]
    · simp [identifyPrdAttachments, List.filter_cons, h, ih]

lemma identifyDesign_eq_filter : ∀ l : List Attachment,
    identifyHldLldAttachments l = l.filter (fun a => isDesignFilename a.filename) := by
  intro l
  induction l with
  | nil => rfl
  | cons a rest ih =>
    by_cases h : isDesignFilename a.filename
    · simp [identifyHldLldAttachments, List.filter_cons, h, ih]
    · simp [identifyHldLldAttachments, List.filter_cons, h, ih]

/-- C5: the text-extraction operation is, in this embedding, a function of
its byte, filename and content-type inputs together with the library
oracles, and its exception-level run can never surface an error: whatever
the oracles do, _extract_text_from_bytes returns normally, so failure is
visible to the caller only as a None result. -/
theorem extract_text_never_propagates_errors (libs : Libs) (bytes : List Nat)
    (filename contentType : String) :
    ∃ r : Option String, extractTextFromBytesE libs bytes filename contentType = .ok r := by
  unfold extractTextFromBytesE
  exact pyTry_ok_none _

/-- C8: whenever the dispatch of _extract_text_from_bytes selects the PDF
branch (filename ending in .pdf or a content-type hint containing pdf),
the outcome is _extract_pdf_text; on an all-pages-succeed run that is the
page texts each followed by a newline, concatenated and stripped, and on
a reader failure or any page failure it is None, never a partial text. -/
theorem pdf_branch_fail_closed :
    (∀ (libs : Libs) (bytes : List Nat) (fn ct : String), pdfCond fn ct = true →
        extractTextFromBytesE libs bytes fn ct = extractPdfTextE libs bytes) ∧
    (∀ (libs : Libs) (bytes : List Nat) (strs : List String),
        libs.pdfParse bytes = .ok (strs.map Except.ok) →
        extractPdfTextE libs bytes = .ok (some (pyStrip (concatStrs (strs.map (· ++ "\n")))))) ∧
    (∀ (libs : Libs) (bytes : List Nat) (pre : List String) (e : String)
        (post : List (PyResult String)),
        libs.pdfParse bytes = .ok (pre.map Except.ok ++ Except.error e :: post) →
        extractPdfTextE libs bytes = .ok none) ∧
    (∀ (libs : Libs) (bytes : List Nat) (e : String),
        libs.pdfParse bytes = .error e → extractPdfTextE libs bytes = .ok none) := by
  refine ⟨?_, ?_, ?_, ?_⟩
  · intro libs bytes fn ct h
    obtain ⟨r, hr⟩ : ∃ r, extractPdfTextE libs bytes = .ok r := by
      unfold extractPdfTextE
      exact pyTry_ok_none _
    simp [extractTextFromBytesE, h, hr, pyTry]
  · intro libs bytes strs h
    unfold extractPdfTextE
    rw [h]
    simp [pdfBody, pdfFold_all_ok strs "", String.empty_append, pyTry]
  · intro libs bytes pre e post h
    unfold extractPdfTextE
    rw [h]
    simp [pdfBody, pdfFold_page_error pre e post "", pyTry]
  · intro libs bytes e h
    unfold extractPdfTextE
    rw [h]
    simp [pdfBody, pyTry]

/-- Witness for C8 at concrete inputs: a pdf-named file takes the PDF
branch, and a parse whose single page raises yields None. -/
theorem pdf_branch_fail_closed_witness :
    extractTextFromBytesE okLibs [0] "a.pdf" "" = extractPdfTextE okLibs [0] ∧
    extractPdfTextE
      ⟨fun _ => .ok [Except.error "page boom"], fun _ => .ok [], fun s => .ok s,
       fun _ => "", ""⟩ [0] = .ok none :=
  ⟨pdf_branch_fail_closed.1 okLibs [0] "a.pdf" "" (by decide),
   pdf_branch_fail_closed.2.2.1
     ⟨fun _ => .ok [Except.error "page boom"], fun _ => .ok [], fun s => .ok s,
      fun _ => "", ""⟩ [0] [] "page boom" [] rfl⟩

/-- Counterexample for C2: the spec-worded classifiers accept a functional
spec with a docx extension and an architecture document with a docx
extension, but the code's pattern lists pair those names only with the
pdf extension, so both files are left unclassified. -/
theorem classifier_extension_counterexample :
    specReqFilename "functional spec.docx" = true ∧
    isPrdFilename "functional spec.docx" = false ∧
    identifyPrdAttachments [sampleAtt "functional spec.docx"] = [] ∧
    specDesignFilename "architecture.docx" = true ∧
    isDesignFilename "architecture.docx" = false ∧
    identifyHldLldAttachments [sampleAtt "architecture.docx"] = [] := by
  decide

/-- C2 amended: the classifiers return exactly the attachments, in input
order, whose lowercased filename matches one of the code's patterns; the
name-with-extension combinations actually accepted are as evaluated below
(in particular functional spec and business requirement only with pdf;
hld and lld with all three extensions but a bare design-containing name
only with doc or docx; high/low level design, technical design,
architecture and design document only with pdf), and the scenario
filenames classify as the spec describes. -/
theorem classifier_patterns_amended :
    (∀ l : List Attachment,
        identifyPrdAttachments l = l.filter (fun a => isPrdFilename a.filename)) ∧
    (∀ l : List Attachment,
        identifyHldLldAttachments l = l.filter (fun a => isDesignFilename a.filename)) ∧
    (isPrdFilename "prd.pdf" = true ∧ isPrdFilename "prd.doc" = true ∧
     isPrdFilename "prd.docx" = true ∧
     isPrdFilename "product requirement.docx" = true ∧
     isPrdFilename "requirement document.doc" = true ∧
     isPrdFilename "functional spec.pdf" = true ∧
     isPrdFilename "business requirement.pdf" = true ∧
     isPrdFilename "functional spec.doc" = false ∧
     isPrdFilename "business requirement.docx" = false) ∧
    (isDesignFilename "hld.pdf" = true ∧ isDesignFilename "hld.doc" = true ∧
     isDesignFilename "hld.docx" = true ∧ isDesignFilename "lld.pdf" = true ∧
     isDesignFilename "lld.docx" = true ∧
     isDesignFilename "my design.doc" = true ∧
     isDesignFilename "my design.docx" = true ∧
     isDesignFilename "my design.pdf" = false ∧
     isDesignFilename "high level design.pdf" = true ∧
     isDesignFilename "high level design.docx" = true ∧
     isDesignFilename "technical design.docx" = true ∧
     isDesignFilename "design document.doc" = true ∧
     isDesignFilename "architecture.pdf" = true) ∧
    identifyHldLldAttachments [sampleAtt "HLD_Architecture.docx", sampleAtt "random_notes.docx"] =
      [sampleAtt "HLD_Architecture.docx"] :=
  ⟨identifyPrd_eq_filter, identifyDesign_eq_filter, by decide, by decide, by decide⟩

lemma readFile_setFile (store : FileStore) (p c : String) :
    readFile (setFile store p c) p = some c := by
  simp [readFile, setFile]

lemma consolidate_foldl (store : FileStore) : ∀ (files : List String) (acc : String),
    List.foldl
      (fun acc f =>
        match readFile store f with
        | some c => acc ++ "\n---\n\n" ++ c ++ "\n\n"
        | none => acc) acc files
    = acc ++ concatStrs ((files.filterMap (readFile store)).map
        (fun c => "\n---\n\n" ++ c ++ "\n\n")) := by
  intro files
  induction files with
  | nil => intro acc; simp [concatStrs]
  | cons f fs ih =>
    intro acc
    cases h : readFile store f with
    | none => simp [List.foldl_cons, List.filterMap_cons, h, ih]
    | some c =>
      simp only [List.foldl_cons, h]
      rw [ih]
      simp [List.filterMap_cons, h, concatStrs, String.append_assoc]

/-- C3: consolidation always writes the fixed-name artifact (overwriting
whatever the store held there), whose content is exactly the fixed header
followed, in input (append) order, by each readable unit body wrapped in
the fixed delimiter block; an empty unit list yields exactly the header
and no error. -/
theorem consolidate_writes_exact (store : FileStore) (files : List String) :
    (consolidateDocuments store files).1 = finalContentPath ∧
    readFile (consolidateDocuments store files).2 finalContentPath =
      some (consolidatedHeader ++ concatStrs ((files.filterMap (readFile store)).map
        (fun c => "\n---\n\n" ++ c ++ "\n\n"))) ∧
    (files = [] → readFile (consolidateDocuments store files).2 finalContentPath =
      some consolidatedHeader) := by
  refine ⟨rfl, ?_, ?_⟩
  · simp only [consolidateDocuments]
    rw [consolidate_foldl store files consolidatedHeader]
    exact readFile_setFile store finalContentPath _
  · intro h
    subst h
    exact readFile_setFile store finalContentPath consolidatedHeader

/-- Witness for C3 at the empty store and empty unit list: the artifact
path is the fixed one and its content is exactly the header. -/
theorem consolidate_writes_exact_witness :
    (consolidateDocuments [] []).1 = finalContentPath ∧
    readFile (consolidateDocuments [] []).2 finalContentPath = some consolidatedHeader :=
  ⟨(consolidate_writes_exact [] []).1, (consolidate_writes_exact [] []).2.2 rfl⟩

/-- C4: for a ticket with no attachments both classifiers come back empty,
the resolver emits a requirements request whose options include the
check-parent option besides text, URL/path and skip, and a design request
whose options have no check-parent entry; the wiki request is emitted
exactly when link extraction over the description finds nothing, which in
particular happens for an empty description. -/
theorem zero_attachments_missing_requests (t : Ticket) (h : t.attachments = []) :
    identifyPrdAttachments t.attachments = [] ∧
    identifyHldLldAttachments t.attachments = [] ∧
    checkForMissingDocuments t =
      [prdMissingRequest t.key] ++
        (if extractConfluenceLinks t.description = []
         then [confluenceMissingRequest t.key] else []) ++
        [designMissingRequest t.key] ∧
    (prdMissingRequest t.key).options =
      ["Provide PRD content as text", "Provide PRD file path/URL",
       "Skip PRD and continue with available information", "Check parent Epic for PRD"] ∧
    "Check parent Epic for PRD" ∈ (prdMissingRequest t.key).options ∧
    (designMissingRequest t.key).options =
      ["Provide design document file path/URL", "Provide design specifications as text",
       "Skip design docs and continue with available information"] ∧
    ((designMissingRequest t.key).options.all
      (fun o => !containsSub (lowerStr o) "parent")) = true ∧
    (confluenceMissingRequest t.key ∈ checkForMissingDocuments t ↔
      extractConfluenceLinks t.description = []) ∧
    extractConfluenceLinks "" = [] := by
  have hne1 : confluenceMissingRequest t.key ≠ prdMissingRequest t.key := by
    intro he
    have hd : ("confluence" : String) = "prd" :=
      congrArg MissingDocumentRequest.documentType he
    exact absurd hd (by decide)
  have hne2 : confluenceMissingRequest t.key ≠ designMissingRequest t.key := by
    intro he
    have hd : ("confluence" : String) = "design" :=
      congrArg MissingDocumentRequest.documentType he
    exact absurd hd (by decide)
  refine ⟨?_, ?_, ?_, rfl, ?_, rfl, ?_, ?_, ?_⟩
  · rw [h]; rfl
  · rw [h]; rfl
  · simp [checkForMissingDocuments, h, identifyPrdAttachments, identifyHldLldAttachments]
  · simp [prdMissingRequest]
  · rfl
  · by_cases hl : extractConfluenceLinks t.description = [] <;>
      simp [checkForMissingDocuments, h, hl, identifyPrdAttachments,
        identifyHldLldAttachments, hne1, hne2]
  · decide

/-- Witness for C4: evaluating the resolver on a concrete attachment-free
ticket with empty description yields all three requests. -/
theorem zero_attachments_missing_requests_witness :
    checkForMissingDocuments c4Ticket =
      [prdMissingRequest "T-9", confluenceMissingRequest "T-9", designMissingRequest "T-9"] := by
  have h := (zero_attachments_missing_requests c4Ticket rfl).2.2.1
  rw [h]
  rfl

lemma processPrdLoop_store (libs : Libs) (jira : String → String → PyResult (List Nat))
    (key : String) : ∀ (atts : List Attachment) (i : Nat) (store : FileStore),
    (processPrdLoop libs jira key atts i store).2 =
      ((enumFrom i atts).filterMap (fun p =>
        (attachmentExtract libs jira p.2).map (fun t =>
          (attPath "prd" key p.1, attachmentMarkdown "prd" p.2 key t)))).reverse ++ store := by
  intro atts
  induction atts with
  | nil => intro i store; simp [processPrdLoop, enumFrom]
  | cons a rest ih =>
    intro i store
    cases hx : attachmentExtract libs jira a with
    | none =>
      simp [processPrdLoop, enumFrom, List.filterMap_cons, processAttachment, hx, ih]
    | some t =>
      simp [processPrdLoop, enumFrom, List.filterMap_cons, processAttachment, hx, ih,
        setFile, List.reverse_cons, List.append_assoc]

lemma processDesignLoop_store (libs : Libs) (jira : String → String → PyResult (List Nat))
    (key : String) : ∀ (atts : List Attachment) (i : Nat) (store : FileStore),
    (processDesignLoop libs jira key atts i store).2 =
      ((enumFrom i atts).filterMap (fun p =>
        (attachmentExtract libs jira p.2).map (fun t =>
          (attPath (designDocType p.2.filename) key p.1,
           attachmentMarkdown (designDocType p.2.filename) p.2 key t)))).reverse ++ store := by
  intro atts
  induction atts with
  | nil => intro i store; simp [processDesignLoop, enumFrom]
  | cons a rest ih =>
    intro i store
    cases hx : attachmentExtract libs jira a with
    | none =>
      simp [processDesignLoop, enumFrom, List.filterMap_cons, processAttachment, hx, ih]
    | some t =>
      simp [processDesignLoop, enumFrom, List.filterMap_cons, processAttachment, hx, ih,
        setFile, List.reverse_cons, List.append_assoc]

/-- C1 amended: in each processing call the sequence number given to an
attachment unit is its 1-based position in the classified attachment list
of that call, independent of whether earlier fetches succeeded, and for
design attachments one counter is shared across the hld and lld
categories; only successful fetches add a unit to the store, so the
stored numbers for a (category, origin) pair are strictly increasing but
can skip values — they are not count-of-already-stored-plus-one. -/
theorem attachment_sequence_numbers_are_positions :
    (∀ (libs : Libs) (jira : String → String → PyResult (List Nat)) (key : String)
        (atts : List Attachment) (i : Nat) (store : FileStore),
        (processPrdLoop libs jira key atts i store).2 =
          ((enumFrom i atts).filterMap (fun p =>
            (attachmentExtract libs jira p.2).map (fun t =>
              (attPath "prd" key p.1, attachmentMarkdown "prd" p.2 key t)))).reverse ++ store) ∧
    (∀ (libs : Libs) (jira : String → String → PyResult (List Nat)) (key : String)
        (atts : List Attachment) (i : Nat) (store : FileStore),
        (processDesignLoop libs jira key atts i store).2 =
          ((enumFrom i atts).filterMap (fun p =>
            (attachmentExtract libs jira p.2).map (fun t =>
              (attPath (designDocType p.2.filename) key p.1,
               attachmentMarkdown (designDocType p.2.filename) p.2 key t)))).reverse ++ store) :=
  ⟨processPrdLoop_store, processDesignLoop_store⟩

/-- Counterexample for C1: with two classified PRD attachments whose first
fetch fails, the only stored unit carries sequence number 2 — the failed
fetch consumed number 1, so the numbers for the (prd, T-1) pair do not
run 1, 2, … and are not count-of-stored-plus-one. -/
theorem sequence_number_counterexample :
    (processPrdAttachments c1Libs c1Jira c1Ticket []).2.map Prod.fst =
      [attPath "prd" "T-1" 2] ∧
    readFile (processPrdAttachments c1Libs c1Jira c1Ticket []).2
      (attPath "prd" "T-1" 1) = none := by
  decide

/-- Counterexample for C6: for a URL whose slash-digits-slash segment is
in the middle of the path, the code extracts an id while the spec-worded
procedure (whose third pattern is trailing-only) extracts none. -/
theorem page_id_trailing_counterexample :
    extractConfluencePageId "https://ex.com/99/foo" = some "99" ∧
    claimedExtractPageId "https://ex.com/99/foo" = none := by
  decide

/-- C6 amended: the fetch extracts the page id by trying, in order, a
pages path segment, a pageId query parameter, and a slash-digits-slash
segment ANYWHERE in the URL (leftmost occurrence), first match winning;
the scenario URL yields 123456, and whenever no id is extractable the
fetch returns None without touching the store. -/
theorem page_id_extraction_amended :
    extractConfluencePageId
      "https://example.atlassian.net/wiki/spaces/X/pages/123456/Title" = some "123456" ∧
    (∀ (libs : Libs) (api : String → PyResult ConfPage) (url tk : String) (n : Nat)
        (store : FileStore), extractConfluencePageId url = none →
        fetchConfluencePage libs api url tk n store = (none, store)) ∧
    extractConfluencePageId "https://ex.com/99/foo" = some "99" ∧
    extractConfluencePageId "https://h/wiki/spaces/A/pages/11/x?pageId=22" = some "11" ∧
    extractConfluencePageId "https://h/abc?pageId=12/34/" = some "12" := by
  refine ⟨by decide, ?_, by decide, by decide, by decide⟩
  intro libs api url tk n store h
  simp [fetchConfluencePage, h]

/-- Witness for C6 at a concrete URL carrying no extractable id: the
fetch fails without creating any unit. -/
theorem page_id_extraction_amended_witness :
    fetchConfluencePage okLibs (fun _ => .error "down") "https://example.com/page"
      "T-1" 1 [] = (none, []) :=
  page_id_extraction_amended.2.1 okLibs (fun _ => .error "down")
    "https://example.com/page" "T-1" 1 [] (by decide)

/-- Counterexample for C7: the URL-fetch unit is persisted under a name
that carries no from-origin marker in the claimed position and does not
end in the content suffix, so it does not follow the claimed pattern. -/
theorem unit_file_naming_counterexample :
    (fetchDocumentFromUrl okLibs (fun _ => .ok ⟨"text/plain", [], "hello"⟩)
        "http://docs.example/spec" "prd" "PROJ-1" []).1 =
      some (urlDocPath "prd" "PROJ-1") ∧
    urlDocPath "prd" "PROJ-1" =
      documentsFolder ++ "/" ++ "user-provided-prd-PROJ-1-from-url.md" ∧
    claimedUnitNamePattern "user-provided-prd-PROJ-1-from-url.md" = false := by
  decide

/-- C7 amended: attachment units and wiki-page units are persisted under
the claimed category-from-origin-kind-sequence-content pattern, but
ticket-content units use the jira-key-content name, URL-fetched units the
user-provided-from-url name, user-supplied text units the
user-provided-type-key name through the agent tool and the fixed
prd-manual-content.md through the chatbot's manual path — none of which
follow the claimed pattern — and the Consolidated Artifact is the fixed
final-content.md. -/
theorem unit_file_naming :
    (∀ (libs : Libs) (jira : String → String → PyResult (List Nat)) (a : Attachment)
        (ty tk : String) (n : Nat) (store : FileStore) (p : String) (st2 : FileStore),
        processAttachment libs jira a ty tk n store = (some p, st2) → p = attPath ty tk n) ∧
    (∀ (libs : Libs) (api : String → PyResult ConfPage) (url tk : String) (n : Nat)
        (store : FileStore) (p : String) (st2 : FileStore),
        fetchConfluencePage libs api url tk n store = (some p, st2) → p = confPath tk n) ∧
    (∀ (libs : Libs) (http : String → PyResult HttpResp) (url ct tk : String)
        (store : FileStore) (p : String) (st2 : FileStore),
        fetchDocumentFromUrl libs http url ct tk store = (some p, st2) → p = urlDocPath ct tk) ∧
    (∀ (t : Ticket) (store : FileStore),
        (saveJiraContent t none store).1 =
          documentsFolder ++ "/" ++ ("jira-" ++ t.key) ++ "-content.md") ∧
    (∀ (store : FileStore) (files : List String),
        (consolidateDocuments store files).1 = finalContentPath) ∧
    (∀ (libs : Libs) (content tk : String) (store : FileStore),
        (processUserProvidedContent libs "prd" content tk store).1 =
          documentsFolder ++ "/" ++ ("user-provided-prd-" ++ tk ++ ".md")) ∧
    (∀ (libs : Libs) (ct content tk : String) (store : FileStore),
        lowerStr ct ≠ "prd" → lowerStr ct ≠ "confluence" → lowerStr ct ≠ "design" →
        (processUserProvidedContent libs ct content tk store).1 =
          documentsFolder ++ "/" ++ ("user-provided-" ++ ct ++ "-" ++ tk ++ ".md")) ∧
    (∀ (content : String) (store : FileStore),
        (manualPrdSave content store).1 =
          documentsFolder ++ "/" ++ "prd-manual-content.md") ∧
    claimedUnitNamePattern "user-provided-prd-T-1.md" = false ∧
    claimedUnitNamePattern "prd-manual-content.md" = false ∧
    claimedUnitNamePattern "prd-from-T-1-attachment2-content.md" = true ∧
    claimedUnitNamePattern "conf-from-T-1-page1-content.md" = true := by
  refine ⟨?_, ?_, ?_, ?_, ?_, ?_, ?_, ?_, by decide, by decide, by decide, by decide⟩
  · intro libs jira a ty tk n store p st2 hps
    cases hx : attachmentExtract libs jira a with
    | none => simp [processAttachment, hx] at hps
    | some t =>
      simp [processAttachment, hx] at hps
      exact hps.1.symm
  · intro libs api url tk n store p st2 hps
    cases hid : extractConfluencePageId url with
    | none => simp [fetchConfluencePage, hid] at hps
    | some pid =>
      cases hapi : api pid with
      | error e => simp [fetchConfluencePage, hid, hapi] at hps
      | ok page =>
        cases hsoup : libs.soupGetText page.bodyStorage with
        | error e => simp [fetchConfluencePage, hid, hapi, hsoup] at hps
        | ok text =>
          simp [fetchConfluencePage, hid, hapi, hsoup] at hps
          exact hps.1.symm
  · intro libs http url ct tk store p st2 hps
    cases hh : http url with
    | error e => simp [fetchDocumentFromUrl, hh] at hps
    | ok resp =>
      cases hr : routeUrlText libs url resp with
      | none => simp [fetchDocumentFromUrl, hh, hr] at hps
      | some t =>
        by_cases ht : t = ""
        · simp [fetchDocumentFromUrl, hh, hr, ht] at hps
        · simp [fetchDocumentFromUrl, hh, hr, ht] at hps
          exact hps.1.symm
  · intro t store; rfl
  · intro store files; rfl
  · intro libs content tk store; rfl
  · intro libs ct content tk store h1 h2 h3
    simp [processUserProvidedContent, saveUserContent, h1, h2, h3]
  · intro content store; rfl

/-- Witness for C7 at a concrete successful attachment fetch: the unit
lands at the patterned path. -/
theorem unit_file_naming_witness :
    (processAttachment okLibs okJira (sampleAtt "x.pdf") "prd" "T-1" 1 []).1 =
      some (attPath "prd" "T-1" 1) := by
  obtain ⟨p, st2, hps⟩ : ∃ p st2,
      processAttachment okLibs okJira (sampleAtt "x.pdf") "prd" "T-1" 1 [] = (some p, st2) :=
    ⟨_, _, rfl⟩
  rw [hps]
  rw [unit_file_naming.1 okLibs okJira (sampleAtt "x.pdf") "prd" "T-1" 1 [] p st2 hps]

/-- C9: a design-classified attachment is stored under category hld
exactly when its lowercased filename contains hld or high, and under lld
otherwise; in particular architecture and technical-design files, though
classified design, are persisted as lld. -/
theorem design_category_rule :
    (∀ f : String, designDocType f = "hld" ↔
        (containsSub (lowerStr f) "hld" = true ∨ containsSub (lowerStr f) "high" = true)) ∧
    (∀ f : String, designDocType f = "hld" ∨ designDocType f = "lld") ∧
    designDocType "Architecture.pdf" = "lld" ∧
    designDocType "technical_design.docx" = "lld" ∧
    isDesignFilename "Architecture.pdf" = true ∧
    isDesignFilename "technical_design.docx" = true ∧
    (∀ (libs : Libs) (jira : String → String → PyResult (List Nat)) (key : String)
        (a : Attachment) (i : Nat) (store : FileStore) (t : String),
        attachmentExtract libs jira a = some t →
        (processDesignLoop libs jira key [a] i store).2 =
          setFile store (attPath (designDocType a.filename) key i)
            (attachmentMarkdown (designDocType a.filename) a key t)) := by
  refine ⟨?_, ?_, by decide, by decide, by decide, by decide, ?_⟩
  · intro f
    unfold designDocType
    cases hh : containsSub (lowerStr f) "hld" <;>
      cases hg : containsSub (lowerStr f) "high" <;> decide
  · intro f
    unfold designDocType
    cases hh : containsSub (lowerStr f) "hld" <;>
      cases hg : containsSub (lowerStr f) "high" <;> decide
  · intro libs jira key a i store t hx
    simp [processDesignLoop, processAttachment, hx]

/-- Witness for C9 at a concrete lld-named attachment: the stored unit
carries the lld category in its path. -/
theorem design_category_rule_witness :
    (processDesignLoop okLibs okJira "T-1" [sampleAtt "service_lld.docx"] 1 []).2 =
      setFile [] (attPath (designDocType "service_lld.docx") "T-1" 1)
        (attachmentMarkdown (designDocType "service_lld.docx")
          (sampleAtt "service_lld.docx") "T-1" "para") :=
  design_category_rule.2.2.2.2.2.2 okLibs okJira "T-1" (sampleAtt "service_lld.docx")
    1 [] "para" (by decide)

/-- C10: an extraction that succeeds with an empty string is treated
exactly like an extraction failure by process_attachment — no unit is
created or persisted — and a zero-byte txt attachment decodes to the
empty string, hence hits that path. -/
theorem empty_extraction_not_stored :
    (∀ (libs : Libs) (jira : String → String → PyResult (List Nat)) (a : Attachment)
        (ty tk : String) (n : Nat) (store : FileStore) (bs : List Nat),
        jira a.downloadUrl a.filename = .ok bs →
        extractTextFromBytes libs bs a.filename a.contentType = some "" →
        processAttachment libs jira a ty tk n store = (none, store)) ∧
    (∀ libs : Libs, libs.decode [] = "" →
        extractTextFromBytes libs [] "notes.txt" "" = some "") := by
  constructor
  · intro libs jira a ty tk n store bs hj hx
    simp [processAttachment, attachmentExtract, hj, hx]
  · intro libs hd
    have hpdf : pdfCond "notes.txt" "" = false := by decide
    have hword : wordCond "notes.txt" "" = false := by decide
    have htxt : textCond "notes.txt" "" = true := by decide
    unfold extractTextFromBytes extractTextFromBytesE
    simp [pyTry, hpdf, hword, htxt, hd]

/-- Witness for C10: a zero-byte txt attachment extracts to the empty
string and is not stored. -/
theorem empty_extraction_not_stored_witness :
    processAttachment c10Libs c10Jira (sampleAtt "notes.txt") "prd" "T-1" 1 [] = (none, []) :=
  empty_extraction_not_stored.1 c10Libs c10Jira (sampleAtt "notes.txt") "prd" "T-1" 1 [] []
    rfl (empty_extraction_not_stored.2 c10Libs rfl)


end TestGenius
